import Mathlib

/-!
Shallow embedding of the MeetPointTurs repository
(`src/components/MeetingBanner.tsx` and the entry bootstrap) and proofs
about the claims of its specification.

JavaScript-specific behaviour is modelled faithfully:
* optional props are `Option` fields; destructuring defaults are the
  structure's default values;
* JS truthiness tests (`if (x)`, `x || y`, `x && y`) on strings treat the
  empty string as falsy, on numbers treat `0` as falsy, and on objects are
  always truthy;
* the `Intl.DateTimeFormat` / `Date`-parsing environment is an abstract
  parameter (`IntlModel`): its constructor may throw (modelled by
  `ctorOk = false`), `format` on an invalid date throws (modelled by the
  date being `none`), and string date parsing may yield an invalid date.
-/

/-- Substring containment: `pat` occurs contiguously inside `s`.
Models the informal "contains the substring" of the specification. -/
def strContains (pat s : String) : Prop := pat.data <:+: s.data

instance (pat s : String) : Decidable (strContains pat s) :=
  List.decidableInfix pat.data s.data

/-- Models JavaScript `String.prototype.toLowerCase` (character-wise). -/
def jsToLowerCase (s : String) : String := ⟨s.data.map Char.toLower⟩

/-- Models JavaScript `String.prototype.startsWith`. -/
def strStartsWith (s pre : String) : Bool := pre.data.isPrefixOf s.data

/-- JS truthiness of an optional string: `undefined` and `""` are falsy. -/
def jsTruthyStr : Option String → Bool
  | some s => !(s == "")
  | none => false

/-- One hexadecimal digit (uppercase), as produced by `encodeURIComponent`. -/
def hexDigit (n : Nat) : Char :=
  if n < 10 then Char.ofNat (48 + n) else Char.ofNat (55 + n)

/-- UTF-8 byte sequence of a character (as byte values). -/
def utf8Bytes (c : Char) : List Nat :=
  let n := c.toNat
  if n < 0x80 then [n]
  else if n < 0x800 then [0xC0 + n / 64, 0x80 + n % 64]
  else if n < 0x10000 then [0xE0 + n / 4096, 0x80 + (n / 64) % 64, 0x80 + n % 64]
  else [0xF0 + n / 262144, 0x80 + (n / 4096) % 64, 0x80 + (n / 64) % 64, 0x80 + n % 64]

/-- Percent-encoding of one byte, e.g. `%2C`. -/
def percentByte (b : Nat) : String :=
  "%" ++ String.singleton (hexDigit (b / 16)) ++ String.singleton (hexDigit (b % 16))

/-- Characters `encodeURIComponent` leaves unescaped. -/
def isUnreservedURIChar (c : Char) : Bool :=
  c.isAlphanum ||
    c ∈ [Char.ofNat 45, Char.ofNat 95, Char.ofNat 46, Char.ofNat 33,
         Char.ofNat 126, Char.ofNat 42, Char.ofNat 39, Char.ofNat 40, Char.ofNat 41]

/-- Models JavaScript `encodeURIComponent`. -/
def encodeURIComponent (s : String) : String :=
  String.join (s.data.map fun c =>
    if isUnreservedURIChar c then String.singleton c
    else String.join ((utf8Bytes c).map percentByte))

/-! ## The JavaScript date / Intl environment -/

/-- A JS date-like value as accepted by `formatMeetingTime`'s `meetingDate`:
a `Date` object (possibly an Invalid Date, hence `Option Int` for its
timestamp in milliseconds), a string, or a numeric timestamp. -/
inductive DateLike
  | dateObj (t : Option Int)
  | str (s : String)
  | num (n : Int)
deriving DecidableEq

/-- JS truthiness of a date-like value: objects are truthy, a string is
truthy iff nonempty, a number is truthy iff nonzero. -/
def DateLike.truthy : DateLike → Bool
  | .dateObj _ => true
  | .str s => !(s == "")
  | .num n => !(n == 0)

/-- JS truthiness of the optional `meetingDate` argument. -/
def jsTruthyDate : Option DateLike → Bool
  | some d => d.truthy
  | none => false

/-- Abstract model of the host JavaScript environment's `Date` parsing and
`Intl.DateTimeFormat`.  `parse s = none` models `new Date(s)` yielding an
Invalid Date; `ctorOk loc tz = false` models the `Intl.DateTimeFormat`
constructor throwing (invalid locale or time zone); `format` is the
hour/minute rendering the formatter produces on a valid date. -/
structure IntlModel where
  parse : String → Option Int
  ctorOk : Option String → Option String → Bool
  format : Option String → Option String → Option Bool → Int → String

/-- ECMAScript TimeClip: a numeric timestamp yields a valid `Date` only
within ±8.64e15 milliseconds of the epoch; outside that range `new Date(n)`
is an Invalid Date. -/
def timeClip (n : Int) : Option Int :=
  if n.natAbs ≤ 8640000000000000 then some n else none

/-- `new Date(x)` / identity on `Date` objects: the timestamp, `none` when
the resulting `Date` is invalid (an invalid `Date` object, an unparsable
string, or a numeric timestamp outside the TimeClip range). -/
def toJsDate (M : IntlModel) : DateLike → Option Int
  | .dateObj t => t
  | .str s => M.parse s
  | .num n => timeClip n

/-- `locale || undefined` as passed to the `Intl.DateTimeFormat` ctor. -/
def jsLocaleArg : Option String → Option String
  | some s => if s == "" then none else some s
  | none => none

/-- The `opts` record of `formatMeetingTime`. -/
structure FormatOpts where
  meetingTimeText : Option String := none
  meetingDate : Option DateLike := none
  locale : Option String := none
  timeZone : Option String := none
  hour12 : Option Bool := none

/-- The `try { new Intl.DateTimeFormat(...).format(date) }` block:
`none` when it throws. -/
def tryIntlFormat (M : IntlModel) (loc tz : Option String) (h12 : Option Bool)
    (date : Option Int) : Option String :=
  if M.ctorOk loc tz then date.map (M.format loc tz h12) else none

/-- Embedding of `formatMeetingTime` (MeetingBanner.tsx lines 119-141). -/
def formatMeetingTime (M : IntlModel) (opts : FormatOpts) : String :=
  if jsTruthyStr opts.meetingTimeText then opts.meetingTimeText.getD ""
  else if !(jsTruthyDate opts.meetingDate) then "5:30 PM"
  else
    match opts.meetingDate with
    | none => "5:30 PM"
    | some d =>
      match tryIntlFormat M (jsLocaleArg opts.locale) opts.timeZone opts.hour12
          (toJsDate M d) with
      | some s => s
      | none => "5:30 PM"

/-! ## The banner component -/

/-- The two supported interface languages. -/
inductive Lang
  | es
  | en
deriving DecidableEq

/-- The safe Tailwind palettes (`type Palette`). -/
inductive Palette
  | teal
  | emerald
  | green
deriving DecidableEq

/-- Embedding of `MeetingBannerProps` after the destructuring defaults of
the component header (lines 143-164): optional props without a default are
`Option` fields, props with a destructuring default carry that default. -/
structure MeetingBannerProps where
  meetingTimeText : Option String := none
  meetingDate : Option DateLike := none
  timeZone : Option String := none
  locale : Option String := none
  hour12 : Option Bool := none
  locationLabel : String := "Designated Meeting Point"
  palette : Palette := .teal
  logoSrc : Option String := none
  brandName : Option String := none
  titleText : Option String := none
  policyLines : Option (List String) := none
  className : String := ""
  locationUrl : Option String := none
  locationCtaLabel : Option String := none
  openInNewTab : Bool := true
  showLanguageToggle : Bool := true
  googleMapsApiKey : Option String := none
  origin : String := "Corcovado Hiking Tours, Puerto Jiménez, Puntarenas, Costa Rica"
  destination : String := "Muelle Público, Puerto Jiménez, Puntarenas, Costa Rica"
  showMap : Bool := true

/-- The `useState` initializer (lines 165-168): language derived from the
configured locale, `(locale || '').toLowerCase().startsWith('es')`. -/
def initLang (locale : Option String) : Lang :=
  if strStartsWith (jsToLowerCase (locale.getD "")) "es" then .es else .en

/-- The language-toggle click handler (line 365):
`setLang(prev => prev === 'es' ? 'en' : 'es')`. -/
def toggleLang : Lang → Lang
  | .es => .en
  | .en => .es

/-- Line 170: `lang === 'es' ? 'es-ES' : (locale || 'en-US')`. -/
def effectiveLocale (lang : Lang) (locale : Option String) : String :=
  match lang with
  | .es => "es-ES"
  | .en => if jsTruthyStr locale then locale.getD "" else "en-US"

/-- The `timeString` computed during render (lines 173-179). -/
def timeStringOf (M : IntlModel) (p : MeetingBannerProps) (lang : Lang) : String :=
  formatMeetingTime M
    { meetingTimeText := p.meetingTimeText
      meetingDate := p.meetingDate
      locale := some (effectiveLocale lang p.locale)
      timeZone := p.timeZone
      hour12 := p.hour12 }

/-- `defaultPolicyEn` (lines 185-192). -/
def defaultPolicyEn (timeString : String) : List String :=
  ["Please arrive at the designated meeting point by " ++ timeString ++ ".",
   "Guests who do not arrive on time will forfeit the tour and all associated rights.",
   "Late arrivals are not eligible for refunds or claims."]

/-- `defaultPolicyEs` (lines 194-201). -/
def defaultPolicyEs (timeString : String) : List String :=
  ["Por favor, llegue al punto de encuentro a las " ++ timeString ++ ".",
   "Los clientes que no lleguen a tiempo perderán el tour y los derechos asociados.",
   "Los retrasos no son reembolsables ni reclamables."]

/-- The `policy` selection (lines 203-205):
`policyLines && policyLines.length > 0 ? policyLines : (isEs ? Es : En)`. -/
def policyOf (policyLines : Option (List String)) (lang : Lang)
    (timeString : String) : List String :=
  match policyLines with
  | some ls =>
    if ls.length > 0 then ls
    else if lang = .es then defaultPolicyEs timeString else defaultPolicyEn timeString
  | none =>
    if lang = .es then defaultPolicyEs timeString else defaultPolicyEn timeString

/-- The embedded-map iframe `src` (line 293). -/
def embedSrc (googleMapsApiKey origin destination : String) : String :=
  "https://www.google.com/maps/embed/v1/directions?key=" ++
    encodeURIComponent googleMapsApiKey ++
    "&origin=" ++ encodeURIComponent origin ++
    "&destination=" ++ encodeURIComponent destination ++ "&mode=walking"

/-- The static route link `href` (line 302). -/
def dirLinkUrl (origin destination : String) : String :=
  "https://www.google.com/maps/dir/?api=1&origin=" ++ encodeURIComponent origin ++
    "&destination=" ++ encodeURIComponent destination ++ "&travelmode=walking"

/-- The geolocation-success route URL (line 333); latitude and longitude are
interpolated as their JS decimal rendering. -/
def geoSuccessUrl (latitude longitude destination : String) : String :=
  "https://www.google.com/maps/dir/?api=1&origin=" ++ latitude ++ "," ++ longitude ++
    "&destination=" ++ encodeURIComponent destination ++ "&travelmode=walking"

/-- The geolocation-failure / no-geolocation route URL (lines 337 and 342). -/
def geoFallbackUrl (destination : String) : String :=
  "https://www.google.com/maps/dir/?api=1&origin=Current+Location&destination=" ++
    encodeURIComponent destination ++ "&travelmode=walking"

/-- The map block of the rendered markup (lines 284-319): an inline iframe
when an API key is configured, otherwise an outbound link with its info
text, label and tab behaviour. -/
inductive MapBlock
  | embedFrame (src : String)
  | routeLink (infoText : String) (href : String) (label : String) (newTab : Bool)
deriving DecidableEq

/-- The floating language-toggle control (lines 361-379). -/
structure ToggleControl where
  ariaLabel : String
  badge : String
  text : String
deriving DecidableEq

/-- Projection of the component's rendered markup onto its textual content:
everything the claims talk about.  Styling class names are presentational
and omitted.  `ctaLabel` is the value computed at line 183 (it is not used
in the returned markup). -/
structure Rendered where
  lang : Lang
  timeString : String
  headingText : String
  locationLabel : Option String
  ctaLabel : String
  policy : List String
  punctualityNote : String
  mapBlock : Option MapBlock
  geoInfoText : String
  geoButtonLabel : String
  toggle : Option ToggleControl
deriving DecidableEq

/-- Embedding of one render pass of the `MeetingBanner` component at a
given language state (lines 143-382). -/
def MeetingBanner (M : IntlModel) (p : MeetingBannerProps) (lang : Lang) : Rendered :=
  let timeString := timeStringOf M p lang
  let isEs := lang = Lang.es
  let title := if jsTruthyStr p.titleText then p.titleText.getD ""
    else if isEs then "Hora de encuentro" else "Meeting Time"
  let ctaLabel := if jsTruthyStr p.locationCtaLabel then p.locationCtaLabel.getD ""
    else if isEs then "Ver ubicación" else "View location"
  { lang := lang
    timeString := timeString
    headingText := title ++ ": " ++ timeString
    locationLabel := if p.locationLabel == "" then none else some p.locationLabel
    ctaLabel := ctaLabel
    policy := policyOf p.policyLines lang timeString
    punctualityNote := "Thank you for your punctuality and cooperation."
    mapBlock :=
      if p.showMap then
        some (if jsTruthyStr p.googleMapsApiKey then
          .embedFrame (embedSrc (p.googleMapsApiKey.getD "") p.origin p.destination)
        else
          .routeLink
            (if isEs then "Ver ruta en Google Maps" else "View route in Google Maps")
            (dirLinkUrl p.origin p.destination)
            (if isEs then "Ver ruta desde Corcovado Hiking Tours en Google Maps"
             else "View route from Corcovado Hiking Tours in Google Maps")
            p.openInNewTab)
      else none
    geoInfoText := if isEs then "Ruta desde su ubicación" else "Route from your location"
    geoButtonLabel := if isEs then "Iniciar ruta" else "Start route"
    toggle :=
      if p.showLanguageToggle then
        some { ariaLabel := if isEs then "Cambiar a inglés" else "Switch to Spanish"
               badge := if isEs then "ES" else "EN"
               text := if isEs then "Español" else "English" }
      else none }

/-! ## The entry bootstrap -/

/-- The configuration the entry point passes to the banner (main entry
file, lines 26-33). -/
def bootstrapProps : MeetingBannerProps :=
  { meetingTimeText := some "5:30 PM"
    locationLabel := "Designated Meeting Point"
    locationUrl := some "https://maps.google.com/?q=Central%20Meeting%20Point"
    locale := some "es-ES"
    brandName := some "MeetPoint Tours"
    palette := .teal }

/-- Embedding of the entry bootstrap (main entry file, lines 21-35): look
up the `root` element (the host document is modelled as a lookup from
element ids to element handles); throw when absent, otherwise render the
banner with the example configuration into it at its initial language. -/
def bootstrap (M : IntlModel) (getElementById : String → Option Nat) :
    Except String (Nat × Rendered) :=
  match getElementById "root" with
  | none => .error "Root element #root not found"
  | some rootEl => .ok (rootEl, MeetingBanner M bootstrapProps (initLang bootstrapProps.locale))

/-! ## A concrete sample environment (used for closed-form evaluations) -/

/-- A concrete `IntlModel` used to evaluate the embedding at closed inputs.
It accepts a few locales and time zones and renders a valid date
abstractly but injectively. -/
def sampleIntl : IntlModel where
  parse s := if s == "1970-01-01T00:00:00Z" then some 0 else none
  ctorOk loc tz :=
    (loc.getD "en-US" ∈ ["en-US", "es-ES", "fr-FR"]) &&
      (tz.getD "UTC" ∈ ["UTC", "America/Mexico_City"])
  format _ _ _ t := "fmt@" ++ toString t

/-! ## Helper lemmas about substring containment -/

theorem strContains_self (pat : String) : strContains pat pat :=
  ⟨[], [], by simp⟩

theorem strContains_append_left (pat s t : String) (h : strContains pat s) :
    strContains pat (s ++ t) := by
  obtain ⟨u, v, huv⟩ := h
  refine ⟨u, v ++ t.data, ?_⟩
  rw [String.data_append, ← huv]
  simp [List.append_assoc]

theorem strContains_append_right (pat s t : String) (h : strContains pat t) :
    strContains pat (s ++ t) := by
  obtain ⟨u, v, huv⟩ := h
  refine ⟨s.data ++ u, v, ?_⟩
  rw [String.data_append, ← huv]
  simp [List.append_assoc]

/-- A JS `startsWith` test succeeds exactly when the string decomposes as
the tested text followed by a remainder. -/
theorem strStartsWith_iff (s pre : String) :
    strStartsWith s pre = true ↔ ∃ t, s = pre ++ t := by
  constructor
  · intro h
    obtain ⟨t, ht⟩ := List.isPrefixOf_iff_prefix.mp h
    refine ⟨⟨t⟩, String.ext ?_⟩
    rw [String.data_append]
    exact ht.symm
  · rintro ⟨t, rfl⟩
    exact List.isPrefixOf_iff_prefix.mpr ⟨t.data, (String.data_append pre t).symm⟩

/-! ## Claims -/

/-- C2 (counterexample): an empty pre-supplied time text is falsy in JS, so
`formatMeetingTime` does not return it unchanged but falls through to the
default string. -/
theorem claim_C2_counterexample :
    formatMeetingTime sampleIntl { meetingTimeText := some "" } = "5:30 PM" ∧
    ("5:30 PM" : String) ≠ "" := by
  exact ⟨rfl, by decide⟩

/-- C2 (amended): for every nonempty pre-supplied time text string and
every combination of the other formatter parameters, `formatMeetingTime`
returns the pre-supplied string unchanged. -/
theorem claim_C2 (M : IntlModel) (opts : FormatOpts) (s : String)
    (hs : opts.meetingTimeText = some s) (hne : s ≠ "") :
    formatMeetingTime M opts = s := by
  simp [formatMeetingTime, hs, jsTruthyStr, hne]

/-- C2 witness. -/
theorem claim_C2_witness :
    formatMeetingTime sampleIntl
      { meetingTimeText := some "7:00 AM", meetingDate := some (.num 42),
        locale := some "xx", timeZone := some "yy", hour12 := some true } = "7:00 AM" :=
  claim_C2 sampleIntl
    { meetingTimeText := some "7:00 AM", meetingDate := some (.num 42),
      locale := some "xx", timeZone := some "yy", hour12 := some true }
    "7:00 AM" rfl (by decide)

/-- C6: toggling the language twice returns the language state to its
prior value, hence one render pass produces exactly the same displayed
output (title, CTA label, policy lines, time string, ...) as before. -/
theorem claim_C6 (M : IntlModel) (p : MeetingBannerProps) (lang : Lang) :
    toggleLang (toggleLang lang) = lang ∧
    MeetingBanner M p (toggleLang (toggleLang lang)) = MeetingBanner M p lang := by
  cases lang <;> exact ⟨rfl, rfl⟩

/-- C7: the initial language state is Spanish exactly when the configured
locale string lowercases to something beginning with "es" (a
case-insensitive prefix match); in every other case, including an absent
locale, it is English. -/
theorem claim_C7 (loc : Option String) :
    (initLang loc = Lang.es ↔ ∃ s t, loc = some s ∧ jsToLowerCase s = "es" ++ t) ∧
    initLang none = Lang.en := by
  refine ⟨?_, rfl⟩
  cases loc with
  | none =>
    constructor
    · intro h
      exact absurd h (by decide)
    · rintro ⟨s, t, hs, _⟩
      exact absurd hs (by simp)
  | some s =>
    unfold initLang
    rw [Option.getD_some]
    by_cases h : strStartsWith (jsToLowerCase s) "es" = true
    · obtain ⟨t, ht⟩ := (strStartsWith_iff (jsToLowerCase s) "es").mp h
      rw [if_pos h]
      exact ⟨fun _ => ⟨s, t, rfl, ht⟩, fun _ => rfl⟩
    · rw [if_neg h]
      constructor
      · intro hcontr
        exact absurd hcontr (by decide)
      · rintro ⟨s', t, hs', hlow⟩
        injection hs' with h'
        subst h'
        exact absurd ((strStartsWith_iff (jsToLowerCase s) "es").mpr ⟨t, hlow⟩) h

/-- C10 (counterexample): with language English and the configured locale
equal to the empty string (a configured value, not an absent one), the
formatter receives "en-US", not the configured locale unchanged. -/
theorem claim_C10_counterexample :
    effectiveLocale Lang.en (some "") = "en-US" ∧
    ("en-US" : String) ≠ "" ∧
    (some "" : Option String) ≠ (none : Option String) := by
  refine ⟨rfl, by decide, by simp⟩

/-- C10 (amended): when the language state is Spanish the formatter locale
is the fixed "es-ES" regardless of the configured locale; when it is
English the formatter receives the configured locale unchanged if
nonempty, and "en-US" when the locale is absent or empty.  In particular
the time string may be formatted in a non-English locale while the
interface text is English. -/
theorem claim_C10 (loc : Option String) (s : String) (hs : s ≠ "") :
    effectiveLocale Lang.es loc = "es-ES" ∧
    effectiveLocale Lang.en (some s) = s ∧
    effectiveLocale Lang.en none = "en-US" ∧
    effectiveLocale Lang.en (some "") = "en-US" := by
  refine ⟨rfl, ?_, rfl, rfl⟩
  simp [effectiveLocale, jsTruthyStr, hs]

/-- C10 witness. -/
theorem claim_C10_witness :
    effectiveLocale Lang.es (some "fr-FR") = "es-ES" ∧
    effectiveLocale Lang.en (some "fr-FR") = "fr-FR" :=
  ⟨(claim_C10 (some "fr-FR") "fr-FR" (by decide)).1,
   (claim_C10 (some "fr-FR") "fr-FR" (by decide)).2.1⟩

/-- The configuration of the C1 example scenario: all fields defaulted
except the pre-formatted time text and the locale. -/
def c1Props : MeetingBannerProps :=
  { meetingTimeText := some "5:30 PM", locale := some "es-ES" }

set_option maxRecDepth 8000 in
/-- C1 (counterexample): in the rendered banner for the C1 configuration,
the second default Spanish policy line does not contain "5:30 PM", so it
is not the case that each of the three default Spanish policy lines
contains that substring. -/
theorem claim_C1_counterexample :
    (MeetingBanner sampleIntl c1Props (initLang c1Props.locale)).policy.getD 1 "" =
      "Los clientes que no lleguen a tiempo perderán el tour y los derechos asociados." ∧
    ¬ strContains "5:30 PM"
      "Los clientes que no lleguen a tiempo perderán el tour y los derechos asociados." := by
  exact ⟨rfl, by decide⟩

set_option maxRecDepth 8000 in
/-- C1 (amended): for the configuration {meetingTimeText: "5:30 PM",
locale: "es-ES"} with all other fields defaulted, the initial language is
"es", the main heading text is "Hora de encuentro: 5:30 PM", the three
default Spanish policy lines are rendered, and the first of them contains
the substring "5:30 PM" (the other two are fixed sentences). -/
theorem claim_C1 :
    initLang c1Props.locale = Lang.es ∧
    (MeetingBanner sampleIntl c1Props (initLang c1Props.locale)).headingText =
      "Hora de encuentro: 5:30 PM" ∧
    (MeetingBanner sampleIntl c1Props (initLang c1Props.locale)).policy =
      ["Por favor, llegue al punto de encuentro a las 5:30 PM.",
       "Los clientes que no lleguen a tiempo perderán el tour y los derechos asociados.",
       "Los retrasos no son reembolsables ni reclamables."] ∧
    strContains "5:30 PM"
      ((MeetingBanner sampleIntl c1Props (initLang c1Props.locale)).policy.getD 0 "") := by
  refine ⟨rfl, by decide, by decide, by decide⟩

/-- C3 (counterexample): the numeric timestamp 0 (the epoch, a valid date)
is falsy in JS, so with a valid locale and time zone the formatter is
never consulted and the fixed default is returned instead of the
locale-aware rendering of that date. -/
theorem claim_C3_counterexample :
    formatMeetingTime sampleIntl
      { meetingDate := some (.num 0), locale := some "en-US", timeZone := some "UTC" } =
      "5:30 PM" ∧
    sampleIntl.ctorOk (jsLocaleArg (some "en-US")) (some "UTC") = true ∧
    toJsDate sampleIntl (.num 0) = some 0 ∧
    sampleIntl.format (jsLocaleArg (some "en-US")) (some "UTC") none 0 ≠ "5:30 PM" := by
  refine ⟨rfl, by decide, rfl, by decide⟩

/-- C3 (amended): with no truthy pre-supplied time text, the formatter
returns exactly "5:30 PM" (raising no error) when the date-like value is
absent or falsy (the number 0, the empty string), when the locale/time
zone combination is invalid, or when the date value is invalid (an
invalid Date object, an unparsable string, or a numeric timestamp outside
the TimeClip range); and for a truthy date-like value yielding a valid
date under a valid locale/time zone it returns the environment's
locale-aware hour:minute formatting of that date. -/
theorem claim_C3 (M : IntlModel) (opts : FormatOpts)
    (htext : jsTruthyStr opts.meetingTimeText = false) :
    (jsTruthyDate opts.meetingDate = false → formatMeetingTime M opts = "5:30 PM") ∧
    (∀ d, opts.meetingDate = some d → d.truthy = true →
      (M.ctorOk (jsLocaleArg opts.locale) opts.timeZone = false →
        formatMeetingTime M opts = "5:30 PM") ∧
      (toJsDate M d = none → formatMeetingTime M opts = "5:30 PM") ∧
      (∀ t, M.ctorOk (jsLocaleArg opts.locale) opts.timeZone = true →
        toJsDate M d = some t →
        formatMeetingTime M opts =
          M.format (jsLocaleArg opts.locale) opts.timeZone opts.hour12 t)) := by
  constructor
  · intro hdate
    simp [formatMeetingTime, htext, hdate]
  · intro d hd htruthy
    refine ⟨?_, ?_, ?_⟩
    · intro hctor
      simp [formatMeetingTime, htext, hd, jsTruthyDate, htruthy, tryIntlFormat, hctor]
    · intro hbad
      simp [formatMeetingTime, htext, hd, jsTruthyDate, htruthy, tryIntlFormat, hbad]
    · intro t hctor ht
      simp [formatMeetingTime, htext, hd, jsTruthyDate, htruthy, tryIntlFormat, hctor, ht]

/-- C3 witness. -/
theorem claim_C3_witness :
    formatMeetingTime sampleIntl
      { meetingDate := some (.num 60000), locale := some "en-US", timeZone := some "UTC" } =
      sampleIntl.format (some "en-US") (some "UTC") none 60000 :=
  ((claim_C3 sampleIntl
      { meetingDate := some (.num 60000), locale := some "en-US", timeZone := some "UTC" }
      rfl).2 (.num 60000) rfl rfl).2.2 60000 rfl rfl

set_option maxRecDepth 8000 in
/-- C4 (counterexample): an explicitly supplied but empty policy list is
discarded (its length is not positive), and the per-language default
policy is rendered instead. -/
theorem claim_C4_counterexample :
    (MeetingBanner sampleIntl { policyLines := some [] } Lang.en).policy =
      defaultPolicyEn "5:30 PM" ∧
    (MeetingBanner sampleIntl { policyLines := some [] } Lang.en).policy ≠ [] := by
  exact ⟨rfl, by decide⟩

/-- C4 (amended): whenever a nonempty explicit policyLines list is
supplied, the rendered policy block is exactly that list, verbatim and in
order, for either value of the language state (so no per-language default
is substituted). -/
theorem claim_C4 (M : IntlModel) (p : MeetingBannerProps) (lang : Lang)
    (ls : List String) (h : p.policyLines = some ls) (hne : ls ≠ []) :
    (MeetingBanner M p lang).policy = ls := by
  have hpos : ls.length > 0 := List.length_pos.mpr hne
  simp [MeetingBanner, policyOf, h, hpos]

/-- C4 witness. -/
theorem claim_C4_witness :
    (MeetingBanner sampleIntl { policyLines := some ["Only line."] } Lang.es).policy =
      ["Only line."] :=
  claim_C4 sampleIntl { policyLines := some ["Only line."] } Lang.es
    ["Only line."] rfl (by decide)

/-- C5 (counterexample): with the map block disabled (`showMap: false`)
and no mapping-provider key, the rendered output contains neither a
link-based route call-to-action nor an inline embedded frame. -/
theorem claim_C5_counterexample :
    (MeetingBanner sampleIntl { showMap := false } Lang.en).mapBlock = none ∧
    ({ showMap := false : MeetingBannerProps }).googleMapsApiKey = none := by
  exact ⟨rfl, rfl⟩

/-- C5 (amended): whenever the map block is enabled (`showMap`, the
default): if the mapping-provider key is absent or empty the rendered map
block is the link-based route call-to-action (so no inline frame), and if
the key is nonempty it is the inline embedded frame whose URL carries the
key, origin, destination (URL-encoded) and the walking mode (so no
link-based call-to-action); with `showMap` disabled neither appears. -/
theorem claim_C5 (M : IntlModel) (p : MeetingBannerProps) (lang : Lang)
    (hm : p.showMap = true) :
    (jsTruthyStr p.googleMapsApiKey = false →
      (MeetingBanner M p lang).mapBlock = some (.routeLink
        (if lang = Lang.es then "Ver ruta en Google Maps" else "View route in Google Maps")
        (dirLinkUrl p.origin p.destination)
        (if lang = Lang.es then "Ver ruta desde Corcovado Hiking Tours en Google Maps"
         else "View route from Corcovado Hiking Tours in Google Maps")
        p.openInNewTab)) ∧
    (∀ k, p.googleMapsApiKey = some k → k ≠ "" →
      (MeetingBanner M p lang).mapBlock =
        some (.embedFrame (embedSrc k p.origin p.destination)) ∧
      strContains (encodeURIComponent k) (embedSrc k p.origin p.destination) ∧
      strContains (encodeURIComponent p.origin) (embedSrc k p.origin p.destination) ∧
      strContains (encodeURIComponent p.destination) (embedSrc k p.origin p.destination) ∧
      strContains "mode=walking" (embedSrc k p.origin p.destination)) := by
  constructor
  · intro hk
    simp [MeetingBanner, hm, hk]
  · intro k hk hne
    have htruthy : jsTruthyStr (some k) = true := by
      simp [jsTruthyStr, hne]
    refine ⟨by simp [MeetingBanner, hm, hk, htruthy], ?_, ?_, ?_, ?_⟩ <;>
      unfold embedSrc
    · exact strContains_append_left _ _ _ (strContains_append_left _ _ _
        (strContains_append_left _ _ _ (strContains_append_left _ _ _
          (strContains_append_left _ _ _
            (strContains_append_right _ _ _ (strContains_self _))))))
    · exact strContains_append_left _ _ _ (strContains_append_left _ _ _
        (strContains_append_left _ _ _
          (strContains_append_right _ _ _ (strContains_self _))))
    · exact strContains_append_left _ _ _
        (strContains_append_right _ _ _ (strContains_self _))
    · exact strContains_append_right _ _ _ (by decide)

/-- C5 witness. -/
theorem claim_C5_witness :
    (MeetingBanner sampleIntl { googleMapsApiKey := some "KEY123", origin := "A", destination := "B" } Lang.en).mapBlock =
      some (.embedFrame (embedSrc "KEY123" "A" "B")) :=
  (((claim_C5 sampleIntl
      { googleMapsApiKey := some "KEY123", origin := "A", destination := "B" }
      Lang.en rfl).2 "KEY123" rfl (by decide))).1

set_option maxRecDepth 8000 in
/-- C8 (counterexample): the geolocation-fallback direction URL does not
contain the URL-encoded configured origin address ("Office XYZQ" here), so
not every direction URL the component constructs carries the origin. -/
theorem claim_C8_counterexample :
    ¬ strContains (encodeURIComponent "Office XYZQ") (geoFallbackUrl "Dock B") := by
  decide

/-- C8 (amended): the embed iframe URL and the static route link contain
the origin and the destination URL-encoded together with a fixed walking
travel-mode query parameter; the two geolocation direction URLs contain
the destination URL-encoded and the walking parameter, but use the device
coordinates or the placeholder "Current+Location" as origin rather than
the configured origin address. -/
theorem claim_C8 (k origin destination latitude longitude : String) :
    (strContains (encodeURIComponent origin) (embedSrc k origin destination) ∧
     strContains (encodeURIComponent destination) (embedSrc k origin destination) ∧
     strContains "mode=walking" (embedSrc k origin destination)) ∧
    (strContains (encodeURIComponent origin) (dirLinkUrl origin destination) ∧
     strContains (encodeURIComponent destination) (dirLinkUrl origin destination) ∧
     strContains "travelmode=walking" (dirLinkUrl origin destination)) ∧
    (strContains (encodeURIComponent destination)
        (geoSuccessUrl latitude longitude destination) ∧
     strContains "travelmode=walking" (geoSuccessUrl latitude longitude destination)) ∧
    (strContains (encodeURIComponent destination) (geoFallbackUrl destination) ∧
     strContains "travelmode=walking" (geoFallbackUrl destination)) := by
  refine ⟨⟨?_, ?_, ?_⟩, ⟨?_, ?_, ?_⟩, ⟨?_, ?_⟩, ⟨?_, ?_⟩⟩ <;>
    simp only [embedSrc, dirLinkUrl, geoSuccessUrl, geoFallbackUrl]
  · exact strContains_append_left _ _ _ (strContains_append_left _ _ _
      (strContains_append_left _ _ _
        (strContains_append_right _ _ _ (strContains_self _))))
  · exact strContains_append_left _ _ _
      (strContains_append_right _ _ _ (strContains_self _))
  · exact strContains_append_right _ _ _ (by decide)
  · exact strContains_append_left _ _ _ (strContains_append_left _ _ _
      (strContains_append_left _ _ _
        (strContains_append_right _ _ _ (strContains_self _))))
  · exact strContains_append_left _ _ _
      (strContains_append_right _ _ _ (strContains_self _))
  · exact strContains_append_right _ _ _ (by decide)
  · exact strContains_append_left _ _ _
      (strContains_append_right _ _ _ (strContains_self _))
  · exact strContains_append_right _ _ _ (by decide)
  · exact strContains_append_left _ _ _
      (strContains_append_right _ _ _ (strContains_self _))
  · exact strContains_append_right _ _ _ (by decide)

/-- C9: if the named page mounting element (`root`) is absent from the
host page, the entry bootstrap throws an error and performs no render; if
it is present, the banner (with the entry's example configuration, at its
initial language) is rendered into it. -/
theorem claim_C9 (M : IntlModel) (getElementById : String → Option Nat) :
    (getElementById "root" = none →
      bootstrap M getElementById = .error "Root element #root not found") ∧
    (∀ el, getElementById "root" = some el →
      bootstrap M getElementById =
        .ok (el, MeetingBanner M bootstrapProps (initLang bootstrapProps.locale))) := by
  constructor
  · intro h
    simp [bootstrap, h]
  · intro el h
    simp [bootstrap, h]

/-- C9 witness. -/
theorem claim_C9_witness :
    bootstrap sampleIntl (fun _ => none) = .error "Root element #root not found" ∧
    bootstrap sampleIntl (fun _ => some 7) =
      .ok (7, MeetingBanner sampleIntl bootstrapProps (initLang bootstrapProps.locale)) :=
  ⟨(claim_C9 sampleIntl (fun _ => none)).1 rfl,
   (claim_C9 sampleIntl (fun _ => some 7)).2 7 rfl⟩
